import Mathlib

/-!
Verification of the Ethereal-Particles particle engine.

The repository ships two near-duplicate variants of each source file.  The
definitions below are shallow embeddings of both variants where the claims
need them:

* `getShapeData`       — second variant of `src/components/ParticleSystem.tsx`
  (`PARTICLE_COUNT = 30000`, positions *and* per-point colors);
* `getShapePositions`  — first variant (`PARTICLE_COUNT = 25000`, positions only);
* `onResults` / `noHandUpdate` / `handUpdate` — the MediaPipe callback of
  `src/App.tsx` (first variant; `noHandUpdateV2` and `targetDistanceOf2` embed
  the second variant's differing constants);
* `expansion` / `finalExpansion`, `tickAxis` / `tickAxisV2`, `rotationStep`,
  `dampAxis` — per-frame animation-loop arithmetic of both variants;
* `handleAiTheme` — the AI-theme handler of `src/App.tsx` together with the
  outcome model of `generateAITheme` (`src/unnamed/part_000`).

JavaScript numbers are modelled as rationals.  Calls to `Math.random()` are
modelled by explicit draw arguments (`d : ℕ → ℚ`, one index per call site in
source order, each draw assumed to lie in `[0,1)`).  The transcendental
`Math` functions (`sin`, `cos`, `acos`, `sqrt`, `cbrt`) and `Math.PI` are
opaque parameters gathered in a `JsMath` record — no claim depends on their
values.  `Math.pow(x, 3)` is written `x ^ 3`, `Math.pow(x, 0.5)` is `sqrt`,
`Math.pow(x, 1/3)` is `cbrt`.
-/

namespace Ethereal

/-! ### Colors, following `THREE.Color` -/

structure Color where
  r : ℚ
  g : ℚ
  b : ℚ
deriving DecidableEq

/-- `THREE.MathUtils.clamp(value, lo, hi) = Math.max(lo, Math.min(hi, value))`. -/
def clamp (value lo hi : ℚ) : ℚ := max lo (min hi value)

/-- JavaScript number-to-integer truncation (round toward zero), as used by
the `%` operator. -/
def jsTrunc (q : ℚ) : ℤ := if 0 ≤ q then ⌊q⌋ else ⌈q⌉

/-- The JavaScript `%` (remainder) operator: `a - m * trunc(a / m)`. -/
def jsMod (a m : ℚ) : ℚ := a - m * jsTrunc (a / m)

/-- `THREE.MathUtils.euclideanModulo(n, m) = ((n % m) + m) % m`. -/
def euclideanModulo (n m : ℚ) : ℚ := jsMod (jsMod n m + m) m

/-- `THREE.MathUtils.lerp(x, y, t) = (1 - t) * x + t * y`. -/
def lerp (x y t : ℚ) : ℚ := (1 - t) * x + t * y

/-- The `hue2rgb` helper of `THREE.Color.setHSL`. -/
def hue2rgb (p q t0 : ℚ) : ℚ :=
  let t1 := if t0 < 0 then t0 + 1 else t0
  let t := if 1 < t1 then t1 - 1 else t1
  if t < 1/6 then p + (q - p) * 6 * t
  else if t < 1/2 then q
  else if t < 2/3 then p + (q - p) * 6 * (2/3 - t)
  else p

/-- `THREE.Color.setHSL`: hue is wrapped with `euclideanModulo`, saturation and
lightness are clamped to `[0,1]`, then HSL is converted to RGB. -/
def setHSL (h0 s0 l0 : ℚ) : Color :=
  let h := euclideanModulo h0 1
  let s := clamp s0 0 1
  let l := clamp l0 0 1
  if s = 0 then ⟨l, l, l⟩
  else
    let p := if l ≤ 1/2 then l * (1 + s) else l + s - (l * s)
    let q := 2 * l - p
    ⟨hue2rgb q p (h + 1/3), hue2rgb q p h, hue2rgb q p (h - 1/3)⟩

/-- `THREE.Color.getHSL`, returning `(h, s, l)`. -/
def getHSL (c : Color) : ℚ × ℚ × ℚ :=
  let maxC := max c.r (max c.g c.b)
  let minC := min c.r (min c.g c.b)
  let lightness := (minC + maxC) / 2
  if minC = maxC then (0, 0, lightness)
  else
    let delta := maxC - minC
    let saturation :=
      if lightness ≤ 1/2 then delta / (maxC + minC) else delta / (2 - maxC - minC)
    let hue :=
      if maxC = c.r then ((c.g - c.b) / delta + if c.g < c.b then 6 else 0) / 6
      else if maxC = c.g then ((c.b - c.r) / delta + 2) / 6
      else ((c.r - c.g) / delta + 4) / 6
    (hue, saturation, lightness)

/-- `THREE.Color.offsetHSL(h, s, l)`: read HSL, add offsets, write back. -/
def offsetHSL (c : Color) (dh ds dl : ℚ) : Color :=
  let hsl := getHSL c
  setHSL (hsl.1 + dh) (hsl.2.1 + ds) (hsl.2.2 + dl)

/-- `new THREE.Color('#rrggbb')`: each channel is one byte scaled by `1/255`. -/
def Color.ofHex (hex : ℕ) : Color :=
  ⟨((hex / 65536 % 256 : ℕ) : ℚ) / 255,
   ((hex / 256 % 256 : ℕ) : ℚ) / 255,
   ((hex % 256 : ℕ) : ℚ) / 255⟩

/-- All three channels lie in the normalized range `[0,1]`. -/
def ValidChannels (c : Color) : Prop :=
  0 ≤ c.r ∧ c.r ≤ 1 ∧ 0 ≤ c.g ∧ c.g ≤ 1 ∧ 0 ≤ c.b ∧ c.b ≤ 1

instance (c : Color) : Decidable (ValidChannels c) := by
  unfold ValidChannels; infer_instance

/-- All three channels lie in `[0, 1.1)` — the widened range that the star
shape's brightness jitter can actually reach. -/
def Bounded11 (c : Color) : Prop :=
  0 ≤ c.r ∧ c.r < 1.1 ∧ 0 ≤ c.g ∧ c.g < 1.1 ∧ 0 ≤ c.b ∧ c.b < 1.1

/-! ### Opaque JavaScript math functions -/

/-- The transcendental `Math` functions used by the generators.  They are kept
abstract: every claim below holds for an arbitrary interpretation. -/
structure JsMath where
  sin : ℚ → ℚ
  cos : ℚ → ℚ
  acos : ℚ → ℚ
  sqrt : ℚ → ℚ
  cbrt : ℚ → ℚ
  pi : ℚ

/-- A concrete (everywhere-zero) interpretation, used to state closed
counterexamples and witnesses. -/
def trivialMath : JsMath :=
  ⟨fun _ => 0, fun _ => 0, fun _ => 0, fun _ => 0, fun _ => 0, 0⟩

/-! ### Shape identifiers

`types.ts` declares `'heart' | 'flower' | 'star' | 'firework' | 'planet' |
'random'`; the second variant additionally uses `'tree'`.  `other` stands for
any further string an unchecked cast could smuggle in. -/

inductive ParticleShape where
  | heart
  | flower
  | star
  | firework
  | planet
  | random
  | tree
  | other (name : String)
deriving DecidableEq

/-! ### Shape generator, second variant (`getShapeData`, 30000 particles) -/

def PARTICLE_COUNT : ℕ := 30000

/-- `case 'heart'` of `getShapeData`.  Draw sites: `d 0 = u`-draw,
`d 1 = v`-draw, `d 2 = volume`-draw, `d 3 = mix`. -/
def heartParticle (M : JsMath) (baseColor : Color) (d : ℕ → ℚ) : (ℚ × ℚ × ℚ) × Color :=
  let u := d 0 * M.pi * 2
  let v := d 1 * M.pi * 2
  let volume := M.cbrt (d 2)
  let x := 16 * (M.sin u) ^ 3 * volume
  let y := (13 * M.cos u - 5 * M.cos (2 * u) - 2 * M.cos (3 * u) - M.cos (4 * u)) * volume
  let z := (M.sin v * 8) * (1 - volume * 0.5) * |M.sin u|
  let mix := d 3
  let tempCol := offsetHSL baseColor (mix * 0.05 - 0.025) 0.1 (-(mix * 0.2))
  ((x * 0.15, y * 0.15, z * 0.15), tempCol)

/-- `case 'star'` of `getShapeData`.  Draw sites: `d 0 = t`-draw,
`d 1` = thickness draw, `d 2` = brightness draw. -/
def starParticle (M : JsMath) (baseColor : Color) (d : ℕ → ℚ) : (ℚ × ℚ × ℚ) × Color :=
  let t := d 0 * M.pi * 2
  let points : ℚ := 5
  let innerRadius : ℚ := 2.0
  let outerRadius : ℚ := 5.0
  let modT := (t * points) / (M.pi * 2)
  let fraction := jsMod modT 1
  let starR :=
    if fraction < 0.5 then lerp outerRadius innerRadius (fraction * 2)
    else lerp innerRadius outerRadius ((fraction - 0.5) * 2)
  let maxThickness : ℚ := 2.0
  let thickness := (1 - starR / outerRadius) * maxThickness * (d 1 * 2 - 1)
  let brightness := 0.7 + d 2 * 0.4
  ((starR * M.cos t, starR * M.sin t, thickness),
   ⟨baseColor.r * brightness, baseColor.g * brightness, baseColor.b * brightness⟩)

/-- `case 'tree'` of `getShapeData`.  Draw sites in source order:
`d 0` = category roll, `d 1`–`d 4` = geometry draws, `d 5` = ornament roll
(only consulted on surface points, `&&` short-circuit), `d 6` = `decoType`,
`d 7` = pine noise, `d 8` = snow roll. -/
def treeParticle (M : JsMath) (baseColor : Color) (d : ℕ → ℚ) : (ℚ × ℚ × ℚ) × Color :=
  let rand := d 0
  if rand < 0.05 then
    let h := d 1
    let y := -4.5 + h * 1.5
    let radius := 0.4 + d 2 * 0.2
    let theta := d 3 * M.pi * 2
    ((radius * M.cos theta, y, radius * M.sin theta), ⟨0.4, 0.25, 0.1⟩)
  else if rand < 0.07 then
    let rStar := M.cbrt (d 1) * 0.6
    let theta := d 2 * M.pi * 2
    let phi := M.acos (2 * d 3 - 1)
    ((rStar * M.sin phi * M.cos theta,
      4.8 + rStar * M.sin phi * M.sin theta,
      rStar * M.cos phi),
     ⟨1.0, 0.9, 0.2⟩)
  else
    let tier := d 1
    let yBase : ℚ := if tier < 0.4 then -3.0 else if tier < 0.75 then -1.0 else 1.5
    let yTop : ℚ := if tier < 0.4 then 0.0 else if tier < 0.75 then 2.5 else 4.5
    let rBase : ℚ := if tier < 0.4 then 3.5 else if tier < 0.75 then 2.5 else 1.5
    let h := d 2
    let y := yBase + h * (yTop - yBase)
    let maxR := rBase * (1 - h)
    let radius := M.sqrt (d 3) * maxR
    let theta := d 4 * M.pi * 2
    let x := radius * M.cos theta
    let z := radius * M.sin theta
    let isSurface := maxR * 0.85 < radius
    if isSurface ∧ d 5 < 0.12 then
      let decoType := d 6
      let col : Color :=
        if decoType < 0.3 then ⟨1.0, 0.1, 0.2⟩
        else if decoType < 0.6 then ⟨1.0, 0.8, 0.1⟩
        else if decoType < 0.8 then ⟨0.2, 0.5, 1.0⟩
        else ⟨1.0, 1.0, 1.0⟩
      ((x * 1.1, y, z * 1.1), col)
    else
      let noise := (d 7 - 0.5) * 0.3
      let treeCol := offsetHSL baseColor (noise * 0.2) 0 noise
      if d 8 < 0.05 then ((x, y, z), ⟨0.9, 0.95, 1.0⟩)
      else ((x, y, z), treeCol)

/-- `case 'planet'` of `getShapeData`: the first 70 % of indices form the
core sphere, the rest the ring.  Draw sites: `d 0`, `d 1`. -/
def planetParticle (M : JsMath) (baseColor : Color) (d : ℕ → ℚ) (i : ℕ) :
    (ℚ × ℚ × ℚ) × Color :=
  if (i : ℚ) < (PARTICLE_COUNT : ℚ) * 0.7 then
    let pPhi := M.acos (2 * d 0 - 1)
    let pTheta := d 1 * M.pi * 2
    let pR : ℚ := 3.5
    ((pR * M.sin pPhi * M.cos pTheta, pR * M.sin pPhi * M.sin pTheta, pR * M.cos pPhi),
     ⟨baseColor.r * 0.9, baseColor.g * 0.9, baseColor.b * 0.9⟩)
  else
    let rR := 5.0 + d 0 * 2.0
    let rTheta := d 1 * M.pi * 2
    ((rR * M.cos rTheta, rR * M.sin rTheta * 0.15, rR * M.sin rTheta * 0.8),
     offsetHSL baseColor 0.05 (-0.2) 0.2)

/-- One iteration of the `getShapeData` loop body: the `switch` has cases for
`heart`, `star`, `tree` and `planet` only; any other identifier leaves the
initializers `x = y = z = 0` and `r = col.r, g = col.g, b = col.b` untouched. -/
def shapeParticle (M : JsMath) (type : ParticleShape) (baseColor : Color)
    (d : ℕ → ℚ) (i : ℕ) : (ℚ × ℚ × ℚ) × Color :=
  match type with
  | .heart => heartParticle M baseColor d
  | .star => starParticle M baseColor d
  | .tree => treeParticle M baseColor d
  | .planet => planetParticle M baseColor d i
  | _ => ((0, 0, 0), baseColor)

/-- `getShapeData(type, baseColor)` (second variant): `PARTICLE_COUNT`
particles, returned as parallel position and color lists.  `D i` is the draw
stream of particle `i`. -/
def getShapeData (M : JsMath) (type : ParticleShape) (baseColor : Color)
    (D : ℕ → ℕ → ℚ) : List (ℚ × ℚ × ℚ) × List Color :=
  let pts := (List.range PARTICLE_COUNT).map (fun i => shapeParticle M type baseColor (D i) i)
  (pts.map Prod.fst, pts.map Prod.snd)

/-- Which identifiers the `getShapeData` `switch` dispatches on. -/
def handledByGetShapeData : ParticleShape → Bool
  | .heart | .star | .tree | .planet => true
  | _ => false

/-! ### Shape generator, first variant (`getShapePositions`, 25000 particles) -/

def PARTICLE_COUNT_V1 : ℕ := 25000

/-- One iteration of the `getShapePositions` loop body (first variant).  Its
`switch` has a `default` case: the uniform cube fill. -/
def shapePosition (M : JsMath) (type : ParticleShape) (d : ℕ → ℚ) (i : ℕ) : ℚ × ℚ × ℚ :=
  let t := ((i : ℚ) / (PARTICLE_COUNT_V1 : ℚ)) * M.pi * 2
  match type with
  | .heart =>
    let hT := d 0 * M.pi * 2
    (16 * (M.sin hT) ^ 3 * 0.15,
     (13 * M.cos hT - 5 * M.cos (2 * hT) - 2 * M.cos (3 * hT) - M.cos (4 * hT)) * 0.15,
     0)
  | .flower =>
    let frVal := M.cos (5 * (t + d 0 * 0.05)) * 3.5
    (frVal * M.cos t, frVal * M.sin t, 0)
  | .star =>
    let modT := jsMod t (M.pi * 2 / 5)
    let rr : ℚ := if modT < M.pi / 5 then 4.5 else 1.8
    (rr * M.cos t, rr * M.sin t, 0)
  | .planet =>
    let phi := M.acos (2 * d 0 - 1)
    let theta := d 1 * M.pi * 2
    (3.0 * M.sin phi * M.cos theta, 3.0 * M.sin phi * M.sin theta, 3.0 * M.cos phi)
  | .firework =>
    let fr := M.sqrt (d 0) * 6
    let u := d 1 * M.pi * 2
    let v := d 2 * M.pi
    (fr * M.sin v * M.cos u, fr * M.sin v * M.sin u, fr * M.cos v)
  | _ =>
    ((d 0 - 0.5) * 15, (d 1 - 0.5) * 15, (d 2 - 0.5) * 15)

/-- `getShapePositions(type)` (first variant). -/
def getShapePositions (M : JsMath) (type : ParticleShape) (D : ℕ → ℕ → ℚ) :
    List (ℚ × ℚ × ℚ) :=
  (List.range PARTICLE_COUNT_V1).map (fun i => shapePosition M type (D i) i)

/-- Which identifiers the `getShapePositions` `switch` names explicitly;
everything else (including `'random'`) takes the `default` cube-fill branch. -/
def handledByGetShapePositions : ParticleShape → Bool
  | .heart | .flower | .star | .planet | .firework => true
  | _ => false

/-! ### Gesture signal conditioner (`hands.onResults` in `src/App.tsx`) -/

structure Vec3 where
  x : ℚ
  y : ℚ
  z : ℚ
deriving DecidableEq

/-- A MediaPipe landmark (only `x` and `y` are read by the handler). -/
structure Landmark where
  x : ℚ
  y : ℚ
deriving DecidableEq

/-- The `HandState` of `types.ts`. -/
structure HandState where
  isOpen : Bool
  distance : ℚ
  position : Vec3
deriving DecidableEq

/-- Conditioner state: the `lastDistance` ref plus the published `handState`. -/
structure CondState where
  lastDistance : ℚ
  handState : HandState
deriving DecidableEq

/-- First variant's initial state: `distance: 0.3`, position at the origin. -/
def initialCondState : CondState :=
  ⟨0.3, ⟨false, 0.3, ⟨0, 0, 0⟩⟩⟩

/-- The no-hand branch (first variant, `src/App.tsx` lines 63–73): decay
`lastDistance` toward the `0.3` default, decay the position by `0.95`, force
`isOpen = false` and write `z = 0`. -/
def noHandUpdate (st : CondState) : CondState :=
  let ld := st.lastDistance * 0.95 + 0.3 * 0.05
  ⟨ld, ⟨false, ld, ⟨st.handState.position.x * 0.95, st.handState.position.y * 0.95, 0⟩⟩⟩

/-- The no-hand branch of the second variant (lines 289–298): identical except
the idle default is `0.25`. -/
def noHandUpdateV2 (st : CondState) : CondState :=
  let ld := st.lastDistance * 0.95 + 0.25 * 0.05
  ⟨ld, ⟨false, ld, ⟨st.handState.position.x * 0.95, st.handState.position.y * 0.95, 0⟩⟩⟩

/-- Linear pinch normalization of the first variant (line 48):
`Math.min(Math.max((rawDist - 0.04) / 0.22, 0), 1)`. -/
def targetDistanceOf (rawDist : ℚ) : ℚ :=
  min (max ((rawDist - 0.04) / 0.22) 0) 1

/-- Linear pinch normalization of the second variant (line 276): divisor `0.21`. -/
def targetDistanceOf2 (rawDist : ℚ) : ℚ :=
  min (max ((rawDist - 0.04) / 0.21) 0) 1

/-- The hand-present branch (first variant, lines 39–62): pinch distance from
landmarks 4 and 8, clamped linear normalization, low-pass smoothing with
weight `0.25` on the new sample, `isOpen` threshold `0.4`, and position from
landmark 9 recentered, scaled by 3, y-inverted, with `z = 0`. -/
def handUpdate (M : JsMath) (center p1 p2 : Landmark) (st : CondState) : CondState :=
  let rawDist := M.sqrt ((p1.x - p2.x) ^ 2 + (p1.y - p2.y) ^ 2)
  let targetDistance := targetDistanceOf rawDist
  let smoothedDistance := st.lastDistance * 0.75 + targetDistance * 0.25
  ⟨smoothedDistance,
   ⟨decide (0.4 < smoothedDistance), smoothedDistance,
    ⟨(center.x - 0.5) * 3, -(center.y - 0.5) * 3, 0⟩⟩⟩

/-- The `hands.onResults` callback (first variant).  The sample is
`results.multiHandLandmarks`: `none` when the field is absent, otherwise the
list of detected hands.  The hand branch reads landmarks 9, 4 and 8 of the
first hand with *no* presence check; in JavaScript a missing landmark is
`undefined` and the subsequent property access throws, so the callback
produces no updated state — modelled as `none`. -/
def onResults (M : JsMath) (multiHandLandmarks : Option (List (List Landmark)))
    (st : CondState) : Option CondState :=
  match multiHandLandmarks with
  | some (landmarks :: _) =>
    match landmarks.get? 9, landmarks.get? 4, landmarks.get? 8 with
    | some center, some p1, some p2 => some (handUpdate M center p1 p2 st)
    | _, _, _ => none
  | some [] => some (noHandUpdate st)
  | none => some (noHandUpdate st)

/-! ### Animation loop arithmetic (`animate` in `ParticleSystem.tsx`) -/

/-- First variant (line 125): `1.2 + Math.pow(dist, 2.0) * 10.8`. -/
def expansion (dist : ℚ) : ℚ := 1.2 + dist ^ 2 * 10.8

/-- Second variant (line 440): `1.2 + Math.pow(dist, 2) * 12`. -/
def finalExpansion (dist : ℚ) : ℚ := 1.2 + dist ^ 2 * 12

/-- First variant (line 133): `lerpSpeed = 0.1 + dist * 0.15`. -/
def lerpSpeed (dist : ℚ) : ℚ := 0.1 + dist * 0.15

/-- Second variant (line 448): `lerpSpeed = 0.08 + dist * 0.1`. -/
def lerpSpeedV2 (dist : ℚ) : ℚ := 0.08 + dist * 0.1

/-- One per-axis interpolation step of the first variant (lines 134–136):
`pos += (target - pos) * lerpSpeed`. -/
def tickAxis (dist target pos : ℚ) : ℚ := pos + (target - pos) * lerpSpeed dist

/-- One per-axis interpolation step of the second variant (lines 449–451). -/
def tickAxisV2 (dist target pos : ℚ) : ℚ := pos + (target - pos) * lerpSpeedV2 dist

/-- Tree-branch rotation damping (second variant, lines 465–469), one axis:
multiply by `0.9`, snap to exactly `0` once the magnitude is below `0.001`. -/
def dampAxis (r : ℚ) : ℚ :=
  let r2 := r * 0.9
  if |r2| < 0.001 then 0 else r2

/-- Rotation angles `(rotation.x, rotation.y)` of the particle object. -/
structure Rot where
  x : ℚ
  y : ℚ
deriving DecidableEq

/-- Per-frame rotation update of the second variant (lines 459–470): every
shape but the tree accumulates `0.0015 + dist * 0.02` (pitch at `0.4×`); the
tree instead damps both angles toward zero. -/
def rotationStep (shape : ParticleShape) (dist : ℚ) (rot : Rot) : Rot :=
  if shape ≠ .tree then
    let rotationSpeed := 0.0015 + dist * 0.02
    ⟨rot.x + rotationSpeed * 0.4, rot.y + rotationSpeed⟩
  else
    ⟨dampAxis rot.x, dampAxis rot.y⟩

/-! ### Theme service (`generateAITheme` + `handleAiTheme`) -/

/-- Outcome of the Gemini call inside `generateAITheme`
(`src/unnamed/part_000`): the request may reject (an exception that
propagates out of `generateAITheme`, since only `JSON.parse` sits in the
`try`), the response text may fail to parse (caught, `null` returned), or a
payload is produced. -/
inductive ServiceResponse where
  | payload (color : String) (shape : ParticleShape) (particleSize : ℚ)
  | parseError
  | requestError
deriving DecidableEq

/-- `generateAITheme` as seen by its caller: `.error` models the propagated
exception, `.ok none` the `null` return, `.ok (some _)` the parsed payload. -/
def generateAITheme : ServiceResponse → Except Unit (Option (String × ParticleShape × ℚ))
  | .payload c s sz => .ok (some (c, s, sz))
  | .parseError => .ok none
  | .requestError => .error ()

/-- The shape/color configuration owned by `App` (first variant). -/
structure AppConfig where
  shape : ParticleShape
  color : String
deriving DecidableEq

/-- `handleAiTheme` (first variant, `src/App.tsx` lines 99–109) restricted to
the shape/color state: empty prompt returns early; a thrown service exception
aborts before `setColor`/`setShape`; a `null` result skips the `if (result)`
body; a payload sets color and shape. -/
def handleAiTheme (aiPrompt : String) (resp : ServiceResponse) (cfg : AppConfig) : AppConfig :=
  if aiPrompt = "" then cfg
  else
    match generateAITheme resp with
    | .error _ => cfg
    | .ok none => cfg
    | .ok (some (c, s, _)) => ⟨s, c⟩

/-! ### Range lemmas for the color pipeline -/

lemma clamp01_nonneg (x : ℚ) : 0 ≤ clamp x 0 1 := le_max_left 0 _

lemma clamp01_le_one (x : ℚ) : clamp x 0 1 ≤ 1 :=
  max_le (by norm_num) (min_le_left 1 x)

lemma jsMod_one_nonneg (a : ℚ) (ha : 0 ≤ a) : 0 ≤ jsMod a 1 := by
  unfold jsMod jsTrunc
  rw [div_one, if_pos ha, one_mul]
  have := Int.floor_le a
  linarith

lemma euclideanModulo_one_nonneg (n : ℚ) : 0 ≤ euclideanModulo n 1 := by
  unfold euclideanModulo
  apply jsMod_one_nonneg
  unfold jsMod jsTrunc
  rw [div_one, one_mul]
  split_ifs with h
  · have := Int.floor_le n
    linarith
  · have := Int.ceil_lt_add_one n
    linarith

lemma hue2rgb_mem (p q t0 : ℚ) (hp0 : 0 ≤ p) (hp1 : p ≤ 1) (hq0 : 0 ≤ q)
    (hq1 : q ≤ 1) (ht : -1 ≤ t0) : 0 ≤ hue2rgb p q t0 ∧ hue2rgb p q t0 ≤ 1 := by
  have key : ∀ t : ℚ, 0 ≤ t →
      0 ≤ (if t < 1/6 then p + (q - p) * 6 * t
           else if t < 1/2 then q
           else if t < 2/3 then p + (q - p) * 6 * (2/3 - t) else p) ∧
      (if t < 1/6 then p + (q - p) * 6 * t
       else if t < 1/2 then q
       else if t < 2/3 then p + (q - p) * 6 * (2/3 - t) else p) ≤ 1 := by
    intro t ht0
    split_ifs with hA hB hC
    · constructor
      · nlinarith [mul_nonneg hp0 (show (0:ℚ) ≤ 1 - 6 * t by linarith),
          mul_nonneg hq0 (show (0:ℚ) ≤ 6 * t by linarith)]
      · nlinarith [mul_nonneg (show (0:ℚ) ≤ 1 - p by linarith)
          (show (0:ℚ) ≤ 1 - 6 * t by linarith),
          mul_nonneg (show (0:ℚ) ≤ 1 - q by linarith) (show (0:ℚ) ≤ 6 * t by linarith)]
    · exact ⟨hq0, hq1⟩
    · constructor
      · nlinarith [mul_nonneg hp0 (show (0:ℚ) ≤ 1 - 6 * (2/3 - t) by linarith),
          mul_nonneg hq0 (show (0:ℚ) ≤ 6 * (2/3 - t) by linarith)]
      · nlinarith [mul_nonneg (show (0:ℚ) ≤ 1 - p by linarith)
          (show (0:ℚ) ≤ 1 - 6 * (2/3 - t) by linarith),
          mul_nonneg (show (0:ℚ) ≤ 1 - q by linarith)
          (show (0:ℚ) ≤ 6 * (2/3 - t) by linarith)]
    · exact ⟨hp0, hp1⟩
  have hnorm : 0 ≤ (if 1 < (if t0 < 0 then t0 + 1 else t0)
      then (if t0 < 0 then t0 + 1 else t0) - 1 else (if t0 < 0 then t0 + 1 else t0)) := by
    split_ifs <;> linarith
  simpa only [hue2rgb] using key _ hnorm

/-- Bounds for the `p`/`q` intermediates of `setHSL` (written exactly as they
occur after zeta-reduction of the definition). -/
lemma hsl_pq_mem (s l : ℚ) (hs0 : 0 ≤ s) (hs1 : s ≤ 1) (hl0 : 0 ≤ l) (hl1 : l ≤ 1) :
    (0 ≤ (if l ≤ 1/2 then l * (1 + s) else l + s - l * s) ∧
      (if l ≤ 1/2 then l * (1 + s) else l + s - l * s) ≤ 1) ∧
    (0 ≤ 2 * l - (if l ≤ 1/2 then l * (1 + s) else l + s - l * s) ∧
      2 * l - (if l ≤ 1/2 then l * (1 + s) else l + s - l * s) ≤ 1) := by
  split_ifs with hl
  · refine ⟨⟨?_, ?_⟩, ?_, ?_⟩
    · nlinarith
    · nlinarith
    · nlinarith [mul_nonneg hl0 (show (0:ℚ) ≤ 1 - s by linarith)]
    · nlinarith [mul_nonneg hl0 hs0]
  · refine ⟨⟨?_, ?_⟩, ?_, ?_⟩
    · nlinarith [mul_nonneg hl0 hs0]
    · nlinarith [mul_nonneg (show (0:ℚ) ≤ 1 - l by linarith)
        (show (0:ℚ) ≤ 1 - s by linarith)]
    · nlinarith [mul_nonneg (show (0:ℚ) ≤ 1 - l by linarith)
        (show (0:ℚ) ≤ 1 - s by linarith)]
    · nlinarith [mul_nonneg (show (0:ℚ) ≤ 1 - l by linarith) hs0]

lemma setHSL_mem (h s l : ℚ) : ValidChannels (setHSL h s l) := by
  have hh := euclideanModulo_one_nonneg h
  have hs0 := clamp01_nonneg s
  have hs1 := clamp01_le_one s
  have hl0 := clamp01_nonneg l
  have hl1 := clamp01_le_one l
  have hpq := hsl_pq_mem (clamp s 0 1) (clamp l 0 1) hs0 hs1 hl0 hl1
  simp only [setHSL]
  by_cases hzero : clamp s 0 1 = 0
  · rw [if_pos hzero]
    exact ⟨hl0, hl1, hl0, hl1, hl0, hl1⟩
  · rw [if_neg hzero]
    have c1 := hue2rgb_mem _ _ (euclideanModulo h 1 + 1/3) hpq.2.1 hpq.2.2
      hpq.1.1 hpq.1.2 (by linarith)
    have c2 := hue2rgb_mem _ _ (euclideanModulo h 1) hpq.2.1 hpq.2.2
      hpq.1.1 hpq.1.2 (by linarith)
    have c3 := hue2rgb_mem _ _ (euclideanModulo h 1 - 1/3) hpq.2.1 hpq.2.2
      hpq.1.1 hpq.1.2 (by linarith)
    exact ⟨c1.1, c1.2, c2.1, c2.2, c3.1, c3.2⟩

lemma offsetHSL_mem (c : Color) (dh ds dl : ℚ) : ValidChannels (offsetHSL c dh ds dl) := by
  unfold offsetHSL
  exact setHSL_mem _ _ _

lemma byte_div_mem (n : ℕ) : 0 ≤ ((n % 256 : ℕ) : ℚ) / 255 ∧ ((n % 256 : ℕ) : ℚ) / 255 ≤ 1 := by
  constructor
  · positivity
  · rw [div_le_one (by norm_num)]
    have h : n % 256 ≤ 255 := Nat.le_of_lt_succ (Nat.mod_lt _ (by norm_num))
    exact_mod_cast h

lemma ofHex_valid (hex : ℕ) : ValidChannels (Color.ofHex hex) :=
  ⟨(byte_div_mem _).1, (byte_div_mem _).2, (byte_div_mem _).1, (byte_div_mem _).2,
   (byte_div_mem _).1, (byte_div_mem _).2⟩

attribute [irreducible] hue2rgb setHSL getHSL offsetHSL euclideanModulo

lemma valid_bounded (c : Color) (h : ValidChannels c) : Bounded11 c := by
  obtain ⟨h1, h2, h3, h4, h5, h6⟩ := h
  exact ⟨h1, lt_of_le_of_lt h2 (by norm_num), h3, lt_of_le_of_lt h4 (by norm_num),
    h5, lt_of_le_of_lt h6 (by norm_num)⟩

set_option maxHeartbeats 1600000 in
/-- Every shape other than `star` produces colors with channels in `[0,1]`:
each branch either copies the base color, scales it by `0.9`, uses fixed
sub-unit palette constants, or passes through the clamping `offsetHSL`. -/
lemma shapeParticle_color_valid (M : JsMath) (type : ParticleShape) (base : Color)
    (hbase : ValidChannels base) (d : ℕ → ℚ) (i : ℕ) (hstar : type ≠ .star) :
    ValidChannels (shapeParticle M type base d i).2 := by
  obtain ⟨hr0, hr1, hg0, hg1, hb0, hb1⟩ := hbase
  cases type with
  | heart =>
      simp only [shapeParticle, heartParticle]
      exact offsetHSL_mem _ _ _ _
  | star => exact absurd rfl hstar
  | tree =>
      simp only [shapeParticle, treeParticle]
      split_ifs <;> dsimp only <;>
        first
          | (refine ⟨?_, ?_, ?_, ?_, ?_, ?_⟩ <;> (norm_num; done))
          | exact offsetHSL_mem _ _ _ _
  | planet =>
      simp only [shapeParticle, planetParticle]
      split_ifs <;> dsimp only
      · refine ⟨mul_nonneg hr0 (by norm_num), ?_, mul_nonneg hg0 (by norm_num), ?_,
          mul_nonneg hb0 (by norm_num), ?_⟩ <;> nlinarith
      · exact offsetHSL_mem _ _ _ _
  | flower => exact ⟨hr0, hr1, hg0, hg1, hb0, hb1⟩
  | firework => exact ⟨hr0, hr1, hg0, hg1, hb0, hb1⟩
  | random => exact ⟨hr0, hr1, hg0, hg1, hb0, hb1⟩
  | other name => exact ⟨hr0, hr1, hg0, hg1, hb0, hb1⟩

/-- The star branch multiplies the base channels by a brightness jitter in
`[0.7, 1.1)`, so channels stay in `[0, 1.1)` — but can exceed `1`. -/
lemma starParticle_color_bounded (M : JsMath) (base : Color)
    (hbase : ValidChannels base) (d : ℕ → ℚ) (hd : ∀ k, 0 ≤ d k ∧ d k < 1) :
    Bounded11 (starParticle M base d).2 := by
  obtain ⟨hr0, hr1, hg0, hg1, hb0, hb1⟩ := hbase
  obtain ⟨hd0, hd1⟩ := hd 2
  have hbr0 : (0:ℚ) ≤ 0.7 + d 2 * 0.4 := by nlinarith
  have hbr1 : (0.7:ℚ) + d 2 * 0.4 < 1.1 := by nlinarith
  simp only [starParticle]
  refine ⟨mul_nonneg hr0 hbr0, ?_, mul_nonneg hg0 hbr0, ?_, mul_nonneg hb0 hbr0, ?_⟩ <;>
    calc _ ≤ 0.7 + d 2 * 0.4 := by nlinarith
      _ < 1.1 := hbr1

lemma shapeParticle_color_bounded (M : JsMath) (type : ParticleShape) (base : Color)
    (hbase : ValidChannels base) (d : ℕ → ℚ) (i : ℕ) (hd : ∀ k, 0 ≤ d k ∧ d k < 1) :
    Bounded11 (shapeParticle M type base d i).2 := by
  by_cases hstar : type = .star
  · subst hstar
    exact starParticle_color_bounded M base hbase d hd
  · exact valid_bounded _ (shapeParticle_color_valid M type base hbase d i hstar)

/-! ### Geometric-decay helpers for the interpolation and damping claims -/

lemma geom_convergence (g c eps : ℚ) (hc0 : 0 ≤ c) (hc1 : c < 1) (heps : 0 < eps) :
    ∃ n : ℕ, |g| * c ^ n < eps := by
  obtain ⟨n, hn⟩ :=
    exists_pow_lt_of_lt_one (div_pos heps (by positivity : (0:ℚ) < |g| + 1)) hc1
  refine ⟨n, ?_⟩
  have h1 : |g| * c ^ n ≤ (|g| + 1) * c ^ n :=
    mul_le_mul_of_nonneg_right (by linarith [abs_nonneg g]) (pow_nonneg hc0 n)
  have h2 : (|g| + 1) * c ^ n < (|g| + 1) * (eps / (|g| + 1)) :=
    mul_lt_mul_of_pos_left hn (by positivity)
  have h3 : (|g| + 1) * (eps / (|g| + 1)) = eps := by
    field_simp
  linarith

lemma iterate_lerp_gap (s t p : ℚ) (n : ℕ) :
    t - (fun q => q + (t - q) * s)^[n] p = (t - p) * (1 - s) ^ n := by
  induction n with
  | zero => simp
  | succ n ih =>
      rw [Function.iterate_succ_apply']
      set x := (fun q => q + (t - q) * s)^[n] p with hx
      show t - (x + (t - x) * s) = (t - p) * (1 - s) ^ (n + 1)
      have hgap : t - x = (t - p) * (1 - s) ^ n := ih
      calc t - (x + (t - x) * s) = (t - x) * (1 - s) := by ring
        _ = (t - p) * (1 - s) ^ n * (1 - s) := by rw [hgap]
        _ = (t - p) * (1 - s) ^ (n + 1) := by ring

lemma dampAxis_abs_le (r : ℚ) : |dampAxis r| ≤ |r| * 0.9 := by
  simp only [dampAxis]
  split_ifs with h
  · rw [abs_zero]
    positivity
  · rw [abs_mul, abs_of_pos (show (0:ℚ) < 0.9 by norm_num)]

lemma iterate_damp_abs_le (r : ℚ) (n : ℕ) : |dampAxis^[n] r| ≤ |r| * (9/10) ^ n := by
  induction n with
  | zero => simp
  | succ n ih =>
      rw [Function.iterate_succ_apply']
      calc |dampAxis (dampAxis^[n] r)| ≤ |dampAxis^[n] r| * 0.9 := dampAxis_abs_le _
        _ ≤ |r| * (9/10) ^ n * 0.9 := mul_le_mul_of_nonneg_right ih (by norm_num)
        _ = |r| * (9/10) ^ (n + 1) := by
            rw [show (0.9:ℚ) = 9/10 by norm_num]
            ring

lemma dampAxis_iterate_zero (r : ℚ) : ∃ n : ℕ, dampAxis^[n] r = 0 := by
  obtain ⟨n, hn⟩ := geom_convergence r (9/10) 0.001 (by norm_num) (by norm_num) (by norm_num)
  refine ⟨n + 1, ?_⟩
  rw [Function.iterate_succ_apply']
  have hb := iterate_damp_abs_le r n
  have hpos : (0:ℚ) ≤ |r| * (9/10) ^ n := by positivity
  simp only [dampAxis]
  rw [if_pos]
  rw [abs_mul, abs_of_pos (show (0:ℚ) < 0.9 by norm_num)]
  calc |dampAxis^[n] r| * 0.9 ≤ |r| * (9/10) ^ n * 0.9 :=
        mul_le_mul_of_nonneg_right hb (by norm_num)
    _ ≤ |r| * (9/10) ^ n := by linarith
    _ < 0.001 := hn

/-! ### Claim theorems -/

/-- C2: The per-frame expansion factor equals `baseScale + openness^2 *
expansionRange`; with the constants of the first variant (`baseScale = 1.2`,
exponent `2`, `expansionRange = 10.8`) openness `0.0` yields exactly `1.2`,
`0.5` exactly `3.9` and `1.0` exactly `12.0`; and on nonnegative openness
both variants' expansion functions are strictly increasing and convex. -/
theorem expansion_values_monotone_convex :
    expansion 0 = 1.2 ∧ expansion 0.5 = 3.9 ∧ expansion 1 = 12 ∧
    (∀ dist : ℚ, expansion dist = 1.2 + dist ^ 2 * 10.8) ∧
    (∀ dist : ℚ, finalExpansion dist = 1.2 + dist ^ 2 * 12) ∧
    (∀ a b : ℚ, 0 ≤ a → a < b →
      expansion a < expansion b ∧ finalExpansion a < finalExpansion b) ∧
    (∀ a b t : ℚ, 0 ≤ t → t ≤ 1 →
      expansion (t * a + (1 - t) * b) ≤ t * expansion a + (1 - t) * expansion b ∧
      finalExpansion (t * a + (1 - t) * b) ≤
        t * finalExpansion a + (1 - t) * finalExpansion b) := by
  refine ⟨by norm_num [expansion], by norm_num [expansion], by norm_num [expansion],
    fun dist => rfl, fun dist => rfl, ?_, ?_⟩
  · intro a b ha hab
    have hs : a ^ 2 < b ^ 2 := by nlinarith
    constructor <;> simp only [expansion, finalExpansion] <;> nlinarith
  · intro a b t ht0 ht1
    have key : 0 ≤ t * (1 - t) * (a - b) ^ 2 :=
      mul_nonneg (mul_nonneg ht0 (by linarith)) (sq_nonneg _)
    constructor <;> simp only [expansion, finalExpansion] <;> nlinarith

/-- C2 witness: the theorem instantiated at concrete openness values. -/
theorem expansion_values_monotone_convex_witness :
    (0:ℚ) ≤ 1/4 ∧ (1/4:ℚ) < 1/2 ∧
    expansion (1/4) < expansion (1/2) ∧ finalExpansion (1/4) < finalExpansion (1/2) :=
  ⟨by norm_num, by norm_num,
   (expansion_values_monotone_convex.2.2.2.2.2.1 (1/4) (1/2) (by norm_num) (by norm_num)).1,
   (expansion_values_monotone_convex.2.2.2.2.2.1 (1/4) (1/2) (by norm_num) (by norm_num)).2⟩

/-- C4: raw pinch distance is mapped linearly from the fixed calibration
range onto `[0,1]` with clamping: `0.04` maps to `0`, any raw distance
`≥ 0.26` maps to `1` under the first variant's `0.04`–`0.22` calibration
(`≥ 0.25` under the second variant's `0.21` divisor), the map is the plain
linear formula inside the range, and the output never leaves `[0,1]`. -/
theorem pinch_normalization_clamps :
    targetDistanceOf 0.04 = 0 ∧
    (∀ raw : ℚ, 0.26 ≤ raw → targetDistanceOf raw = 1) ∧
    (∀ raw : ℚ, 0.04 ≤ raw → raw ≤ 0.26 →
      targetDistanceOf raw = (raw - 0.04) / 0.22) ∧
    (∀ raw : ℚ, 0 ≤ targetDistanceOf raw ∧ targetDistanceOf raw ≤ 1) ∧
    targetDistanceOf2 0.04 = 0 ∧
    (∀ raw : ℚ, 0.25 ≤ raw → targetDistanceOf2 raw = 1) ∧
    (∀ raw : ℚ, 0 ≤ targetDistanceOf2 raw ∧ targetDistanceOf2 raw ≤ 1) := by
  refine ⟨by norm_num [targetDistanceOf], ?_, ?_, ?_, by norm_num [targetDistanceOf2], ?_, ?_⟩
  · intro raw h
    have hx : (1:ℚ) ≤ (raw - 0.04) / 0.22 := by
      rw [le_div_iff₀ (by norm_num)]
      linarith
    unfold targetDistanceOf
    rw [max_eq_left (by linarith), min_eq_right hx]
  · intro raw hlo hhi
    have hx0 : (0:ℚ) ≤ (raw - 0.04) / 0.22 := div_nonneg (by linarith) (by norm_num)
    have hx1 : (raw - 0.04) / 0.22 ≤ 1 := by
      rw [div_le_one (by norm_num)]
      linarith
    unfold targetDistanceOf
    rw [max_eq_left hx0, min_eq_left hx1]
  · intro raw
    exact ⟨le_min (le_max_right _ _) zero_le_one, min_le_right _ _⟩
  · intro raw h
    have hx : (1:ℚ) ≤ (raw - 0.04) / 0.21 := by
      rw [le_div_iff₀ (by norm_num)]
      linarith
    unfold targetDistanceOf2
    rw [max_eq_left (by linarith), min_eq_right hx]
  · intro raw
    exact ⟨le_min (le_max_right _ _) zero_le_one, min_le_right _ _⟩

/-- C4 witness: the clamp behaviour evaluated at the spec's scenario inputs. -/
theorem pinch_normalization_clamps_witness :
    (0.26 : ℚ) ≤ 0.26 ∧ targetDistanceOf 0.26 = 1 ∧ targetDistanceOf 0.04 = 0 :=
  ⟨by norm_num, pinch_normalization_clamps.2.1 0.26 (by norm_num),
   pinch_normalization_clamps.1⟩

/-- C8: a `null` theme-service result or a thrown service exception leaves
the shape/color configuration unchanged (equal, hence byte-for-byte
identical); a parsed payload makes its shape and color the active ones. -/
theorem handleAiTheme_failure_noop_payload_applies (p : String) (cfg : AppConfig)
    (c : String) (s : ParticleShape) (sz : ℚ) :
    handleAiTheme p .parseError cfg = cfg ∧
    handleAiTheme p .requestError cfg = cfg ∧
    (p ≠ "" → handleAiTheme p (.payload c s sz) cfg = ⟨s, c⟩) := by
  refine ⟨?_, ?_, fun hp => ?_⟩
  · simp only [handleAiTheme, generateAITheme]
    split_ifs <;> rfl
  · simp only [handleAiTheme, generateAITheme]
    split_ifs <;> rfl
  · simp only [handleAiTheme, generateAITheme, if_neg hp]

/-- C8 witness: the spec's scenario — a `star`/`#ff0000` payload is applied;
a parse failure leaves the initial planet/`#4facfe` configuration intact. -/
theorem handleAiTheme_witness :
    ("calm sea" : String) ≠ "" ∧
    handleAiTheme ("calm sea") (.payload ("#ff0000") .star 0.05) ⟨.planet, "#4facfe"⟩ =
      ⟨.star, "#ff0000"⟩ ∧
    handleAiTheme ("calm sea") .parseError ⟨.planet, "#4facfe"⟩ = ⟨.planet, "#4facfe"⟩ :=
  ⟨by decide,
   (handleAiTheme_failure_noop_payload_applies ("calm sea") ⟨.planet, "#4facfe"⟩
     "#ff0000" .star 0.05).2.2 (by decide),
   (handleAiTheme_failure_noop_payload_applies ("calm sea") ⟨.planet, "#4facfe"⟩
     "#ff0000" .star 0.05).1⟩

/-- C9: when the active shape is the tree, the frame update damps each
rotation angle: multiply by `0.9`, snap to exactly `0` below the `0.001`
epsilon.  The magnitude never increases (it contracts by at least `0.9`),
every starting angle reaches exactly `0` after finitely many frames, and
zero rotation is a fixed point — the tree never auto-spins. -/
theorem tree_rotation_damps_to_zero :
    (∀ (d : ℚ) (rot : Rot), rotationStep .tree d rot = ⟨dampAxis rot.x, dampAxis rot.y⟩) ∧
    (∀ r : ℚ, |dampAxis r| ≤ |r| * 0.9) ∧
    (∀ r : ℚ, |dampAxis r| ≤ |r|) ∧
    (∀ r : ℚ, ∃ n : ℕ, dampAxis^[n] r = 0) ∧
    dampAxis 0 = 0 ∧
    (∀ d : ℚ, rotationStep .tree d ⟨0, 0⟩ = ⟨0, 0⟩) := by
  have h0 : dampAxis 0 = 0 := by norm_num [dampAxis]
  refine ⟨fun d rot => rfl, dampAxis_abs_le, ?_, dampAxis_iterate_zero, h0, fun d => ?_⟩
  · intro r
    calc |dampAxis r| ≤ |r| * 0.9 := dampAxis_abs_le r
      _ ≤ |r| := by nlinarith [abs_nonneg r]
  · show (⟨dampAxis 0, dampAxis 0⟩ : Rot) = ⟨0, 0⟩
    rw [h0]

/-- C10: the conditioner's initial state has `z = 0` and every state the
`onResults` callback ever publishes (hand present or not) has `z = 0`. -/
theorem position_z_always_zero :
    initialCondState.handState.position.z = 0 ∧
    ∀ (M : JsMath) (sample : Option (List (List Landmark))) (st out : CondState),
      onResults M sample st = some out → out.handState.position.z = 0 := by
  refine ⟨rfl, ?_⟩
  intro M sample st out h
  cases sample with
  | none =>
      simp only [onResults, Option.some.injEq] at h
      subst h
      rfl
  | some hands =>
      cases hands with
      | nil =>
          simp only [onResults, Option.some.injEq] at h
          subst h
          rfl
      | cons lms rest =>
          simp only [onResults] at h
          rcases h9 : lms.get? 9 with _ | center <;> rw [h9] at h
          · simp at h
          · rcases h4 : lms.get? 4 with _ | p1 <;> rw [h4] at h
            · simp at h
            · rcases h8 : lms.get? 8 with _ | p2 <;> rw [h8] at h
              · simp at h
              · simp only [Option.some.injEq] at h
                subst h
                rfl

/-- C10 witness: a concrete no-hand update keeps `z = 0`. -/
theorem position_z_always_zero_witness :
    (noHandUpdate ⟨1, ⟨true, 1, ⟨1, -2, 0⟩⟩⟩).handState.position.z = 0 :=
  position_z_always_zero.2 trivialMath none ⟨1, ⟨true, 1, ⟨1, -2, 0⟩⟩⟩ _ rfl

/-- C1 (amended): for every shape identifier, base color and draw stream,
`getShapeData` returns exactly `PARTICLE_COUNT` positions and exactly
`PARTICLE_COUNT` colors; every color channel is nonnegative and below `1.1`;
and for every shape other than `star` every channel lies in `[0,1]`.  (The
star shape's brightness jitter `0.7 + random * 0.4` can push channels of a
bright base color above `1` — see the counterexample.) -/
theorem getShapeData_counts_and_color_bounds (M : JsMath) (type : ParticleShape)
    (base : Color) (hbase : ValidChannels base) (D : ℕ → ℕ → ℚ)
    (hD : ∀ i k, 0 ≤ D i k ∧ D i k < 1) :
    (getShapeData M type base D).1.length = PARTICLE_COUNT ∧
    (getShapeData M type base D).2.length = PARTICLE_COUNT ∧
    (∀ c ∈ (getShapeData M type base D).2, Bounded11 c) ∧
    (type ≠ .star → ∀ c ∈ (getShapeData M type base D).2, ValidChannels c) := by
  refine ⟨?_, ?_, ?_, ?_⟩
  · simp only [getShapeData, List.length_map, List.length_range]
  · simp only [getShapeData, List.length_map, List.length_range]
  · simp only [getShapeData, List.map_map]
    intro c hc
    obtain ⟨i, hi, rfl⟩ := List.mem_map.1 hc
    exact shapeParticle_color_bounded M type base hbase (D i) i (hD i)
  · intro hstar
    simp only [getShapeData, List.map_map]
    intro c hc
    obtain ⟨i, hi, rfl⟩ := List.mem_map.1 hc
    exact shapeParticle_color_valid M type base hbase (D i) i hstar

/-- C1 counterexample: for the star shape with the full-intensity base color
`#ffffff` and every draw equal to `0.8`, the first returned color has
`r = 1 * (0.7 + 0.8 * 0.4) = 1.02 > 1`, refuting the claim that every
channel lies in `[0,1]`. -/
theorem star_brightness_exceeds_one :
    ((getShapeData trivialMath .star (Color.ofHex 0xffffff) (fun _ _ => 0.8)).2)[0]? =
      some ⟨51/50, 51/50, 51/50⟩ ∧ ¬ ((51:ℚ)/50 ≤ 1) := by
  constructor
  · simp only [getShapeData]
    rw [List.getElem?_map, List.getElem?_map,
      List.getElem?_range (show 0 < PARTICLE_COUNT by norm_num [PARTICLE_COUNT])]
    norm_num [shapeParticle, starParticle, Color.ofHex, Color.mk.injEq]
  · norm_num

/-- C1 witness: the amended theorem at the planet shape, its default
`#00eaff` base color and the constant draw stream `1/2`. -/
theorem getShapeData_counts_and_color_bounds_witness :
    ValidChannels (Color.ofHex 0x00eaff) ∧
    (getShapeData trivialMath .planet (Color.ofHex 0x00eaff) (fun _ _ => 1/2)).1.length
      = PARTICLE_COUNT ∧
    ∀ c ∈ (getShapeData trivialMath .planet (Color.ofHex 0x00eaff) (fun _ _ => 1/2)).2,
      ValidChannels c :=
  ⟨ofHex_valid _,
   (getShapeData_counts_and_color_bounds trivialMath .planet (Color.ofHex 0x00eaff)
     (ofHex_valid _) (fun _ _ => 1/2) (fun _ _ => ⟨by norm_num, by norm_num⟩)).1,
   (getShapeData_counts_and_color_bounds trivialMath .planet (Color.ofHex 0x00eaff)
     (ofHex_valid _) (fun _ _ => 1/2)
     (fun _ _ => ⟨by norm_num, by norm_num⟩)).2.2.2 (by decide)⟩

/-- C3: for constant openness in `[0,1]` and a constant per-axis target, one
interpolation tick multiplies the gap by `1 - lerpSpeed` in both variants;
the gap strictly shrinks whenever it is nonzero, its sign never flips (no
overshoot or oscillation), repeated ticks bring the live value within every
positive epsilon of the target, and the per-tick contraction rate
(`lerpSpeed`) is monotonically increasing in openness. -/
theorem tick_converges_monotone (dist target p : ℚ) (h0 : 0 ≤ dist) (h1 : dist ≤ 1) :
    (target - tickAxis dist target p = (target - p) * (1 - lerpSpeed dist)) ∧
    (target - tickAxisV2 dist target p = (target - p) * (1 - lerpSpeedV2 dist)) ∧
    (p ≠ target →
      |target - tickAxis dist target p| < |target - p| ∧
      |target - tickAxisV2 dist target p| < |target - p|) ∧
    ((target - tickAxis dist target p) * (target - p) ≥ 0 ∧
      (target - tickAxisV2 dist target p) * (target - p) ≥ 0) ∧
    (∀ eps : ℚ, 0 < eps →
      (∃ n : ℕ, |target - (tickAxis dist target)^[n] p| < eps) ∧
      (∃ n : ℕ, |target - (tickAxisV2 dist target)^[n] p| < eps)) ∧
    (∀ dist2 : ℚ, dist ≤ dist2 →
      lerpSpeed dist ≤ lerpSpeed dist2 ∧ lerpSpeedV2 dist ≤ lerpSpeedV2 dist2) := by
  have hs1a : (0:ℚ) < lerpSpeed dist := by simp only [lerpSpeed]; linarith
  have hs1b : lerpSpeed dist < 1 := by simp only [lerpSpeed]; linarith
  have hs2a : (0:ℚ) < lerpSpeedV2 dist := by simp only [lerpSpeedV2]; linarith
  have hs2b : lerpSpeedV2 dist < 1 := by simp only [lerpSpeedV2]; linarith
  have e1 : target - tickAxis dist target p = (target - p) * (1 - lerpSpeed dist) := by
    simp only [tickAxis]; ring
  have e2 : target - tickAxisV2 dist target p = (target - p) * (1 - lerpSpeedV2 dist) := by
    simp only [tickAxisV2]; ring
  refine ⟨e1, e2, fun hp => ?_, ⟨?_, ?_⟩, fun eps heps => ⟨?_, ?_⟩, fun d2 hd2 => ⟨?_, ?_⟩⟩
  · have habs : 0 < |target - p| := abs_pos.2 (sub_ne_zero.2 (Ne.symm hp))
    constructor
    · rw [e1, abs_mul, abs_of_pos (show (0:ℚ) < 1 - lerpSpeed dist by linarith)]
      nlinarith [mul_pos habs hs1a]
    · rw [e2, abs_mul, abs_of_pos (show (0:ℚ) < 1 - lerpSpeedV2 dist by linarith)]
      nlinarith [mul_pos habs hs2a]
  · rw [e1]
    nlinarith [mul_nonneg (sq_nonneg (target - p))
      (show (0:ℚ) ≤ 1 - lerpSpeed dist by linarith)]
  · rw [e2]
    nlinarith [mul_nonneg (sq_nonneg (target - p))
      (show (0:ℚ) ≤ 1 - lerpSpeedV2 dist by linarith)]
  · obtain ⟨n, hn⟩ := geom_convergence (target - p) (1 - lerpSpeed dist) eps
      (by linarith) (by linarith) heps
    refine ⟨n, ?_⟩
    have hfun : tickAxis dist target = fun q => q + (target - q) * lerpSpeed dist := rfl
    rw [hfun, iterate_lerp_gap, abs_mul, abs_pow,
      abs_of_nonneg (show (0:ℚ) ≤ 1 - lerpSpeed dist by linarith)]
    exact hn
  · obtain ⟨n, hn⟩ := geom_convergence (target - p) (1 - lerpSpeedV2 dist) eps
      (by linarith) (by linarith) heps
    refine ⟨n, ?_⟩
    have hfun : tickAxisV2 dist target = fun q => q + (target - q) * lerpSpeedV2 dist := rfl
    rw [hfun, iterate_lerp_gap, abs_mul, abs_pow,
      abs_of_nonneg (show (0:ℚ) ≤ 1 - lerpSpeedV2 dist by linarith)]
    exact hn
  · simp only [lerpSpeed]
    linarith
  · simp only [lerpSpeedV2]
    linarith

/-- C3 witness: one tick at openness `1/2` strictly shrinks the gap from
live `0` to target `1`. -/
theorem tick_converges_monotone_witness :
    (0:ℚ) ≤ 1/2 ∧ (1/2:ℚ) ≤ 1 ∧ ((0:ℚ) ≠ 1) ∧
    |1 - tickAxis (1/2) 1 0| < |1 - (0:ℚ)| :=
  ⟨by norm_num, by norm_num, by norm_num,
   ((tick_converges_monotone (1/2) 1 0 (by norm_num) (by norm_num)).2.2.1
     (by norm_num)).1⟩

/-- C5: one no-hand conditioner update forces `isOpen = false`, publishes
`distance = lastDistance`, moves `lastDistance` toward the idle default
(`0.3` first variant, `0.25` second variant) by the factor `0.95` — strictly
closer whenever it is not already there and never past it (the offset keeps
its sign) — and contracts each position component by `0.95` toward `0`
without a sign flip, writing `z = 0` outright. -/
theorem noHand_decay_monotone (st : CondState) :
    (noHandUpdate st).handState.isOpen = false ∧
    (noHandUpdate st).handState.distance = (noHandUpdate st).lastDistance ∧
    (noHandUpdate st).lastDistance - 0.3 = (st.lastDistance - 0.3) * 0.95 ∧
    (st.lastDistance ≠ 0.3 →
      |(noHandUpdate st).lastDistance - 0.3| < |st.lastDistance - 0.3|) ∧
    ((noHandUpdate st).lastDistance - 0.3) * (st.lastDistance - 0.3) ≥ 0 ∧
    (noHandUpdate st).handState.position.x = st.handState.position.x * 0.95 ∧
    (st.handState.position.x ≠ 0 →
      |(noHandUpdate st).handState.position.x| < |st.handState.position.x|) ∧
    (noHandUpdate st).handState.position.x * st.handState.position.x ≥ 0 ∧
    (noHandUpdate st).handState.position.y = st.handState.position.y * 0.95 ∧
    (st.handState.position.y ≠ 0 →
      |(noHandUpdate st).handState.position.y| < |st.handState.position.y|) ∧
    (noHandUpdate st).handState.position.y * st.handState.position.y ≥ 0 ∧
    (noHandUpdate st).handState.position.z = 0 ∧
    (noHandUpdateV2 st).handState.isOpen = false ∧
    (noHandUpdateV2 st).lastDistance - 0.25 = (st.lastDistance - 0.25) * 0.95 ∧
    (st.lastDistance ≠ 0.25 →
      |(noHandUpdateV2 st).lastDistance - 0.25| < |st.lastDistance - 0.25|) := by
  have hscale : ∀ v : ℚ, v ≠ 0 → |v * 0.95| < |v| := by
    intro v hv
    have hpos := abs_pos.2 hv
    rw [abs_mul, abs_of_pos (show (0:ℚ) < 0.95 by norm_num)]
    linarith
  have e1 : (noHandUpdate st).lastDistance - 0.3 = (st.lastDistance - 0.3) * 0.95 := by
    simp only [noHandUpdate]
    ring
  have e2 : (noHandUpdateV2 st).lastDistance - 0.25 = (st.lastDistance - 0.25) * 0.95 := by
    simp only [noHandUpdateV2]
    ring
  refine ⟨rfl, rfl, e1, fun h => ?_, ?_, rfl, fun h => hscale _ h, ?_, rfl,
    fun h => hscale _ h, ?_, rfl, rfl, e2, fun h => ?_⟩
  · rw [e1]
    exact hscale _ (sub_ne_zero.2 h)
  · rw [e1]
    nlinarith [sq_nonneg (st.lastDistance - 0.3)]
  · show st.handState.position.x * 0.95 * st.handState.position.x ≥ 0
    nlinarith [sq_nonneg st.handState.position.x]
  · show st.handState.position.y * 0.95 * st.handState.position.y ≥ 0
    nlinarith [sq_nonneg st.handState.position.y]
  · rw [e2]
    exact hscale _ (sub_ne_zero.2 h)

/-- C5 witness: one no-hand sample from a concrete displaced state strictly
shrinks the offsets. -/
theorem noHand_decay_monotone_witness :
    ((1:ℚ) ≠ 0.3) ∧
    |(noHandUpdate ⟨1, ⟨true, 1, ⟨1, -2, 0⟩⟩⟩).lastDistance - 0.3| < |(1:ℚ) - 0.3| ∧
    |(noHandUpdate ⟨1, ⟨true, 1, ⟨1, -2, 0⟩⟩⟩).handState.position.y| < |(-2:ℚ)| :=
  ⟨by norm_num,
   (noHand_decay_monotone ⟨1, ⟨true, 1, ⟨1, -2, 0⟩⟩⟩).2.2.2.1 (by norm_num),
   (noHand_decay_monotone ⟨1, ⟨true, 1, ⟨1, -2, 0⟩⟩⟩).2.2.2.2.2.2.2.2.2.1 (by norm_num)⟩

/-- C6 (amended): identifiers outside the `getShapePositions` dispatch fall
back to its `default` uniform cube fill (coordinates `(draw - 0.5) * 15`,
each inside `[-7.5, 7.5)` for draws in `[0,1)`), but identifiers outside the
`getShapeData` dispatch hit no `default` case at all: the particle keeps the
zero-initialized position `(0,0,0)` and the unmodified base color. -/
theorem unrecognized_shape_fallback (M : JsMath) (type : ParticleShape) (base : Color)
    (d : ℕ → ℚ) (i : ℕ) (hd : ∀ k, 0 ≤ d k ∧ d k < 1) :
    (handledByGetShapePositions type = false →
      shapePosition M type d i = ((d 0 - 0.5) * 15, (d 1 - 0.5) * 15, (d 2 - 0.5) * 15)) ∧
    (∀ k, -7.5 ≤ (d k - 0.5) * 15 ∧ (d k - 0.5) * 15 < 7.5) ∧
    (handledByGetShapeData type = false →
      shapeParticle M type base d i = ((0, 0, 0), base)) := by
  refine ⟨fun h1 => ?_, fun k => ?_, fun h2 => ?_⟩
  · cases type <;> first | rfl | simp [handledByGetShapePositions] at h1
  · obtain ⟨ha, hb⟩ := hd k
    constructor <;> nlinarith
  · cases type <;> first | rfl | simp [handledByGetShapeData] at h2

/-- C6 counterexample: the `'random'` identifier (recognized by neither
`switch` of `getShapeData`) produces the origin, not the cube-fill point
`((0.25-0.5)*15, …) = (-3.75, -3.75, -3.75)` that `getShapePositions`
produces from the same draws — so the second generator does *not* fall back
to the uniform cube fill. -/
theorem getShapeData_unrecognized_not_cube :
    ((getShapeData trivialMath .random (Color.ofHex 0x4facfe) (fun _ _ => 0.25)).1)[0]? =
      some ((0, 0, 0) : ℚ × ℚ × ℚ) ∧
    (getShapePositions trivialMath .random (fun _ _ => 0.25))[0]? =
      some ((-15/4, -15/4, -15/4) : ℚ × ℚ × ℚ) ∧
    ((0, 0, 0) : ℚ × ℚ × ℚ) ≠ (-15/4, -15/4, -15/4) := by
  refine ⟨?_, ?_, by norm_num [Prod.ext_iff]⟩
  · simp only [getShapeData]
    rw [List.getElem?_map, List.getElem?_map,
      List.getElem?_range (show 0 < PARTICLE_COUNT by norm_num [PARTICLE_COUNT])]
    rfl
  · simp only [getShapePositions]
    rw [List.getElem?_map,
      List.getElem?_range (show 0 < PARTICLE_COUNT_V1 by norm_num [PARTICLE_COUNT_V1])]
    norm_num [shapePosition, Prod.ext_iff]

/-- C6 witness: the amended theorem at the `'random'` identifier with
constant draws `1/4`. -/
theorem unrecognized_shape_fallback_witness :
    handledByGetShapePositions .random = false ∧
    handledByGetShapeData .random = false ∧
    shapePosition trivialMath .random (fun _ => 1/4) 0 =
      (((1:ℚ)/4 - 0.5) * 15, ((1:ℚ)/4 - 0.5) * 15, ((1:ℚ)/4 - 0.5) * 15) ∧
    shapeParticle trivialMath .random (Color.ofHex 0x4facfe) (fun _ => 1/4) 0 =
      ((0, 0, 0), Color.ofHex 0x4facfe) :=
  ⟨rfl, rfl,
   (unrecognized_shape_fallback trivialMath .random (Color.ofHex 0x4facfe)
     (fun _ => 1/4) 0 (fun _ => ⟨by norm_num, by norm_num⟩)).1 rfl,
   (unrecognized_shape_fallback trivialMath .random (Color.ofHex 0x4facfe)
     (fun _ => 1/4) 0 (fun _ => ⟨by norm_num, by norm_num⟩)).2.2 rfl⟩

/-- C7 (amended): a sample whose `multiHandLandmarks` is absent or empty is
treated as "no hand" and yields a fully defined signal with `isOpen =
false`; but when a hand is present and one of the required landmarks 4, 8 or
9 is missing (fewer than 10 landmarks), the callback faults on an undefined
property access and publishes nothing — it is *not* treated as "no hand".
With all three landmarks present the hand update is published. -/
theorem onResults_missing_landmark (M : JsMath) (st : CondState) :
    onResults M none st = some (noHandUpdate st) ∧
    onResults M (some []) st = some (noHandUpdate st) ∧
    (∀ (lms : List Landmark) (rest : List (List Landmark)), lms.length ≤ 9 →
      onResults M (some (lms :: rest)) st = none) ∧
    (∀ (lms : List Landmark) (rest : List (List Landmark)) (center p1 p2 : Landmark),
      lms.get? 9 = some center → lms.get? 4 = some p1 → lms.get? 8 = some p2 →
      onResults M (some (lms :: rest)) st = some (handUpdate M center p1 p2 st)) := by
  refine ⟨rfl, rfl, ?_, ?_⟩
  · intro lms rest hlen
    have h9 : lms.get? 9 = none := List.get?_eq_none.2 hlen
    rcases h4 : lms.get? 4 with _ | p1 <;> rcases h8 : lms.get? 8 with _ | p2 <;>
      simp only [onResults, h9, h4, h8]
  · intro lms rest center p1 p2 h9 h4 h8
    simp only [onResults, h9, h4, h8]

/-- C7 counterexample: a present hand with only 5 landmarks makes the
callback fault (no state is published), instead of being treated as the
"no hand" sample the claim requires. -/
theorem missing_landmark_faults :
    onResults trivialMath (some [[⟨0, 0⟩, ⟨0, 0⟩, ⟨0, 0⟩, ⟨0, 0⟩, ⟨0, 0⟩]])
      initialCondState = none ∧
    onResults trivialMath (some [[⟨0, 0⟩, ⟨0, 0⟩, ⟨0, 0⟩, ⟨0, 0⟩, ⟨0, 0⟩]])
      initialCondState ≠ some (noHandUpdate initialCondState) := by
  refine ⟨rfl, ?_⟩
  intro h
  exact Option.noConfusion (h.symm.trans rfl)

/-- C7 witness: the amended theorem applied to a hand with 5 landmarks
(missing landmark 9) and to the explicit no-hand sample. -/
theorem onResults_missing_landmark_witness :
    ([(⟨0, 0⟩ : Landmark), ⟨0, 0⟩, ⟨0, 0⟩, ⟨0, 0⟩, ⟨0, 0⟩].length ≤ 9) ∧
    onResults trivialMath (some [[⟨0, 0⟩, ⟨0, 0⟩, ⟨0, 0⟩, ⟨0, 0⟩, ⟨0, 0⟩]])
      initialCondState = none ∧
    onResults trivialMath none initialCondState = some (noHandUpdate initialCondState) :=
  ⟨by norm_num,
   (onResults_missing_landmark trivialMath initialCondState).2.2.1
     [⟨0, 0⟩, ⟨0, 0⟩, ⟨0, 0⟩, ⟨0, 0⟩, ⟨0, 0⟩] [] (by norm_num),
   (onResults_missing_landmark trivialMath initialCondState).1⟩

end Ethereal
